import Mathlib

/-!
Shallow embedding of the container lifecycle orchestrator of
`eddisonso.com/edd-compute` (files `internal/api/containers.go`,
`internal/db/containers.go`, `internal/db/ssh_keys.go`, and the `k8s`
client package).

The record store (SQLite tables) is modelled as Lean lists of rows; the
cluster control plane is modelled as a list of `(namespace, resource kind)`
pairs plus explicit outcome parameters for each gateway call.  Go `int` /
`int64` values are modelled as `Int`.  Errors written by `writeError` are
modelled as `(message, HTTP status)` pairs.
-/

namespace EddCompute

/-- Constant `maxContainersPerUser` in `internal/api/containers.go`. -/
def maxContainersPerUser : Nat := 3

/-- Constant `defaultMemoryMB` in `internal/api/containers.go`. -/
def defaultMemoryMB : Int := 512

/-- Constant `defaultStorageGB` in `internal/api/containers.go`. -/
def defaultStorageGB : Int := 5

/-- Constant `defaultImage` in `internal/api/containers.go`. -/
def defaultImage : String := "eddisonso/edd-compute-base:latest"

/-- A row of the `ssh_keys` table (`db.SSHKey`). -/
structure SSHKey where
  id : Int
  userID : Int
  name : String
  publicKey : String
  fingerprint : String
deriving Repr, DecidableEq

/-- A row of the `containers` table (`db.Container`).  `externalIP` models the
`sql.NullString` column (`none` = NULL); `stoppedAtSet` models whether the
`stopped_at` `sql.NullTime` column is set. -/
structure Container where
  id : String
  userID : Int
  name : String
  nsName : String
  status : String
  externalIP : Option String
  memoryMB : Int
  storageGB : Int
  image : String
  stoppedAtSet : Bool
deriving Repr, DecidableEq

namespace DB

/-- Model of `DB.GetContainer`: `SELECT ... FROM containers WHERE id = ?` (primary key);
returns `none` on `sql.ErrNoRows`. -/
def GetContainer (tbl : List Container) (id : String) : Option Container :=
  tbl.find? (fun c => c.id = id)

/-- Model of `DB.CountContainersByUser`:
`SELECT COUNT(*) FROM containers WHERE user_id = ? AND status != 'deleted'`. -/
def CountContainersByUser (tbl : List Container) (userID : Int) : Nat :=
  (tbl.filter (fun c => c.userID = userID ∧ c.status ≠ "deleted")).length

/-- Model of `DB.CreateContainer`: `INSERT INTO containers ...`. -/
def CreateContainer (tbl : List Container) (c : Container) : List Container :=
  tbl ++ [c]

/-- Model of `DB.UpdateContainerStatus`: `UPDATE containers SET status = ? WHERE id = ?`. -/
def UpdateContainerStatus (tbl : List Container) (id status : String) : List Container :=
  tbl.map (fun c => if c.id = id then { c with status := status } else c)

/-- Model of `DB.UpdateContainerIP`: `UPDATE containers SET external_ip = ? WHERE id = ?`. -/
def UpdateContainerIP (tbl : List Container) (id ip : String) : List Container :=
  tbl.map (fun c => if c.id = id then { c with externalIP := some ip } else c)

/-- Model of `DB.UpdateContainerStopped`:
`UPDATE containers SET status = 'stopped', stopped_at = CURRENT_TIMESTAMP WHERE id = ?`. -/
def UpdateContainerStopped (tbl : List Container) (id : String) : List Container :=
  tbl.map (fun c =>
    if c.id = id then { c with status := "stopped", stoppedAtSet := true } else c)

/-- Model of `DB.DeleteContainer`: `DELETE FROM containers WHERE id = ?`. -/
def DeleteContainer (tbl : List Container) (id : String) : List Container :=
  tbl.filter (fun c => c.id ≠ id)

/-- Model of `DB.GetSSHKeysByIDs`:
`SELECT ... FROM ssh_keys WHERE user_id = ? AND id IN (...)`.
The query has no ORDER BY clause, so rows come back in the engine's scan
order over the integer primary key, i.e. in stored-table order — modelled
here as the order of `tbl` (which holds rows in ascending key ID, the order
AUTOINCREMENT inserts them) — not in the order of `ids`.
Returns `nil` (here `[]`) when `ids` is empty. -/
def GetSSHKeysByIDs (tbl : List SSHKey) (userID : Int) (ids : List Int) : List SSHKey :=
  if ids.isEmpty then []
  else tbl.filter (fun k => k.userID = userID ∧ k.id ∈ ids)

end DB

namespace K8s

/-- The resource kinds the gateway creates inside a container namespace
(plus the namespace itself). -/
inductive ResKind
  | namespaceRes
  | sshSecret
  | pvc
  | networkPolicy
  | pod
  | loadBalancer
deriving Repr, DecidableEq

/-- The cluster control plane state: the set of existing resources, as
`(namespace name, resource kind)` pairs. -/
abbrev Cluster := List (String × ResKind)

/-- Model of `Client.DeletePod`: deletes the pod named `container` in the namespace;
a NotFound error from the cluster is ignored (delete-or-ignore-absent). -/
def DeletePod (cl : Cluster) (ns : String) : Cluster :=
  cl.filter (fun r => ¬(r.1 = ns ∧ r.2 = ResKind.pod))

/-- Model of `Client.DeleteNamespace`: deletes the namespace, cascading every resource
scoped to it; NotFound is ignored. -/
def DeleteNamespace (cl : Cluster) (ns : String) : Cluster :=
  cl.filter (fun r => r.1 ≠ ns)

/-- Model of `Client.CreatePod`: create-or-ignore-already-exists. -/
def CreatePod (cl : Cluster) (ns : String) : Cluster :=
  if (ns, ResKind.pod) ∈ cl then cl else cl ++ [(ns, ResKind.pod)]

/-- What the cluster reports about the pod named `container` when
`Client.GetPodStatus` queries it. -/
inductive PodQuery
  | absent
  | phasePending
  | phaseRunning
  | phaseSucceeded
  | phaseFailed
  | phaseOther
  | queryError
deriving Repr, DecidableEq

/-- Model of `Client.GetPodStatus`: a NotFound lookup yields the string `not_found`
with a nil error; known phases map to the persisted vocabulary; any other
phase yields `unknown`; only a non-NotFound lookup failure is an error. -/
def GetPodStatus : PodQuery → Except Unit String
  | .absent => .ok "not_found"
  | .phasePending => .ok "pending"
  | .phaseRunning => .ok "running"
  | .phaseSucceeded => .ok "stopped"
  | .phaseFailed => .ok "failed"
  | .phaseOther => .ok "unknown"
  | .queryError => .error ()

end K8s

namespace Api

/-- An error written by `writeError`: message and HTTP status code. -/
abbrev ApiError := String × Nat

/-- The body/status `writeError` emits for a missing or foreign-owned
container. -/
def errNotFoundContainer : ApiError := ("container not found", 404)

/-- The JSON body of `containerRequest`. -/
structure ContainerRequest where
  name : String
  memoryMB : Int
  storageGB : Int
  sshKeyIDs : List Int
deriving Repr, DecidableEq

/-- Model of `strings.TrimSpace`: drop leading and trailing whitespace
characters. -/
def trimSpace (s : String) : String :=
  { data := ((s.data.dropWhile Char.isWhitespace).reverse.dropWhile
      Char.isWhitespace).reverse }

/-- The namespace derivation in `CreateContainer`:
`fmt.Sprintf("compute-%d-%s", userID, containerID)`. -/
def namespaceFor (userID : Int) (containerID : String) : String :=
  "compute-" ++ toString userID ++ "-" ++ containerID

/-- Result of the `CreateContainer` handler: the record store after the
handler, the HTTP response, and — when the row was inserted — the arguments
passed to the background `provisionContainer` goroutine. -/
structure CreateResult where
  store : List Container
  response : Except ApiError Container
  provisionArgs : Option (Container × List SSHKey)
deriving Repr

/-- Model of `Handler.CreateContainer` (after authentication): validates the trimmed
name, checks the live per-user count against the cap, validates the SSH key
list, applies sizing defaults, inserts the `pending` row, and hands the row
plus the fetched keys to the background provisioning goroutine. -/
def CreateContainer (store : List Container) (keyTbl : List SSHKey) (userID : Int)
    (req : ContainerRequest) (newID : String) : CreateResult :=
  let name := trimSpace req.name
  if name = "" then
    ⟨store, .error ("name is required", 400), none⟩
  else if maxContainersPerUser ≤ DB.CountContainersByUser store userID then
    ⟨store, .error ("container limit reached (3)", 400), none⟩
  else if req.sshKeyIDs.isEmpty then
    ⟨store, .error ("at least one SSH key is required", 400), none⟩
  else
    let sshKeys := DB.GetSSHKeysByIDs keyTbl userID req.sshKeyIDs
    if sshKeys.length ≠ req.sshKeyIDs.length then
      ⟨store, .error ("one or more SSH keys not found", 400), none⟩
    else
      let memoryMB := if req.memoryMB ≤ 0 then defaultMemoryMB else req.memoryMB
      let storageGB := if req.storageGB ≤ 0 then defaultStorageGB else req.storageGB
      let c : Container :=
        { id := newID
          userID := userID
          name := name
          nsName := namespaceFor userID newID
          status := "pending"
          externalIP := none
          memoryMB := memoryMB
          storageGB := storageGB
          image := defaultImage
          stoppedAtSet := false }
      ⟨DB.CreateContainer store c, .ok c, some (c, sshKeys)⟩

/-- The `authorized_keys` blob built at the top of `provisionContainer`:
each key's raw public-key line followed by a newline, in iteration order. -/
def buildAuthorizedKeys (keys : List SSHKey) : String :=
  keys.foldl (fun acc k => acc ++ k.publicKey ++ "\n") ""

/-- The six gateway calls of the provisioning sequence, in program order. -/
inductive ProvStep
  | nsStep
  | secretStep
  | pvcStep
  | netpolStep
  | podStep
  | lbStep
deriving Repr, DecidableEq

/-- The program order of the provisioning sequence. -/
def provOrder : List ProvStep :=
  [.nsStep, .secretStep, .pvcStep, .netpolStep, .podStep, .lbStep]

/-- Whether each gateway create call of one provisioning run returns nil. -/
structure GatewayOutcome where
  nsOk : Bool
  secretOk : Bool
  pvcOk : Bool
  netpolOk : Bool
  podOk : Bool
  lbOk : Bool
deriving Repr, DecidableEq

/-- Success of step `s` under outcome `g`. -/
def stepOk (g : GatewayOutcome) : ProvStep → Bool
  | .nsStep => g.nsOk
  | .secretStep => g.secretOk
  | .pvcStep => g.pvcOk
  | .netpolStep => g.netpolOk
  | .podStep => g.podOk
  | .lbStep => g.lbOk

/-- Result of one `provisionContainer` run: the record store afterwards, the
gateway steps that were attempted (in order), and whether the IP poller
goroutine was started. -/
structure ProvResult where
  store : List Container
  attempted : List ProvStep
  pollerStarted : Bool
deriving Repr, DecidableEq

/-- Model of `Handler.provisionContainer`: runs the six create calls in order; the
first failing call logs, sets the stored status to `failed` and returns;
when all six succeed the stored status becomes `running` and
`pollExternalIP` is started. -/
def provisionContainer (g : GatewayOutcome) (store : List Container) (cid : String) :
    ProvResult :=
  if !g.nsOk then
    ⟨DB.UpdateContainerStatus store cid "failed", [.nsStep], false⟩
  else if !g.secretOk then
    ⟨DB.UpdateContainerStatus store cid "failed", [.nsStep, .secretStep], false⟩
  else if !g.pvcOk then
    ⟨DB.UpdateContainerStatus store cid "failed", [.nsStep, .secretStep, .pvcStep], false⟩
  else if !g.netpolOk then
    ⟨DB.UpdateContainerStatus store cid "failed",
      [.nsStep, .secretStep, .pvcStep, .netpolStep], false⟩
  else if !g.podOk then
    ⟨DB.UpdateContainerStatus store cid "failed",
      [.nsStep, .secretStep, .pvcStep, .netpolStep, .podStep], false⟩
  else if !g.lbOk then
    ⟨DB.UpdateContainerStatus store cid "failed",
      [.nsStep, .secretStep, .pvcStep, .netpolStep, .podStep, .lbStep], false⟩
  else
    ⟨DB.UpdateContainerStatus store cid "running", provOrder, true⟩

/-- Index of the first failing step of the sequence, if any. -/
def firstFailIdx (g : GatewayOutcome) : Option Nat :=
  provOrder.findIdx? (fun s => !stepOk g s)

/-- Interval: `pollExternalIP` ticks every `5 * time.Second`. -/
def pollIntervalSeconds : Nat := 5

/-- Deadline: `pollExternalIP` runs under a `5 * time.Minute` context deadline. -/
def pollDeadlineSeconds : Nat := 300

/-- Number of ticks a full polling run performs before the deadline fires. -/
def maxPollTicks : Nat := pollDeadlineSeconds / pollIntervalSeconds

/-- Model of `Handler.pollExternalIP`, driven by the per-tick answers of
`Client.GetServiceExternalIP` (`.error` = query failed, `.ok ip` = query
succeeded, where `ip = ""` means not yet assigned).  The list holds one
answer per tick that fits before the deadline (`maxPollTicks` for a full
run); exhausting it is the `ctx.Done` branch.  Returns the record store
after the run and the number of gateway queries made. -/
def pollExternalIP (store : List Container) (cid : String) :
    List (Except Unit String) → List Container × Nat
  | [] => (store, 0)
  | r :: rest =>
    match r with
    | .error _ =>
      let p := pollExternalIP store cid rest
      (p.1, p.2 + 1)
    | .ok ip =>
      if ip = "" then
        let p := pollExternalIP store cid rest
        (p.1, p.2 + 1)
      else
        (DB.UpdateContainerIP store cid ip, 1)

/-- The address a tick's answer carries, if any: `none` for a query error or
an empty (not-yet-assigned) address. -/
def ipOf : Except Unit String → Option String
  | .error _ => none
  | .ok ip => if ip = "" then none else some ip

/-- What the live cluster answers during one `GetContainer` reconciliation:
the pod lookup and the `GetServiceExternalIP` call. -/
structure LiveEnv where
  podQuery : K8s.PodQuery
  serviceIP : Except Unit String
deriving Repr

/-- Model of `Handler.GetContainer` (after authentication): looks the row up, hides
foreign-owned rows as not-found, then reconciles: a non-empty pod status
that differs from the stored one is written back; when the stored row has
no external IP and the live query returns a non-empty one, it is written
back.  Errors of either live query are swallowed.  Returns the record store
after the read and the HTTP response. -/
def GetContainer (store : List Container) (userID : Int) (cid : String)
    (env : LiveEnv) : List Container × Except ApiError Container :=
  match DB.GetContainer store cid with
  | none => (store, .error errNotFoundContainer)
  | some c =>
    if c.userID ≠ userID then
      (store, .error errNotFoundContainer)
    else
      let afterStatus : Container × List Container :=
        match K8s.GetPodStatus env.podQuery with
        | .error _ => (c, store)
        | .ok status =>
          if status ≠ "" ∧ status ≠ c.status then
            ({ c with status := status }, DB.UpdateContainerStatus store c.id status)
          else
            (c, store)
      let c1 := afterStatus.1
      let store1 := afterStatus.2
      let afterIP : Container × List Container :=
        if c1.externalIP = none then
          match env.serviceIP with
          | .error _ => (c1, store1)
          | .ok ip =>
            if ip ≠ "" then
              ({ c1 with externalIP := some ip }, DB.UpdateContainerIP store1 c.id ip)
            else
              (c1, store1)
        else
          (c1, store1)
      (afterIP.2, .ok afterIP.1)

/-- Model of `Handler.StopContainer` (after authentication): looks the row up, hides
foreign-owned rows as not-found, deletes only the pod via the gateway
(`deletePodOk` = that call returned nil), then marks the row stopped and
responds with the stopped view.  A failed pod delete aborts with a 500 and
leaves store and cluster unchanged. -/
def StopContainer (store : List Container) (cl : K8s.Cluster) (userID : Int)
    (cid : String) (deletePodOk : Bool) :
    List Container × K8s.Cluster × Except ApiError Container :=
  match DB.GetContainer store cid with
  | none => (store, cl, .error errNotFoundContainer)
  | some c =>
    if c.userID ≠ userID then
      (store, cl, .error errNotFoundContainer)
    else if !deletePodOk then
      (store, cl, .error ("failed to stop container", 500))
    else
      (DB.UpdateContainerStopped store cid, K8s.DeletePod cl c.nsName,
        .ok { c with status := "stopped" })

/-- Model of `Handler.StartContainer` (after authentication): re-creates only the pod
via the gateway, then sets the stored status to `pending`. -/
def StartContainer (store : List Container) (cl : K8s.Cluster) (userID : Int)
    (cid : String) (createPodOk : Bool) :
    List Container × K8s.Cluster × Except ApiError Container :=
  match DB.GetContainer store cid with
  | none => (store, cl, .error errNotFoundContainer)
  | some c =>
    if c.userID ≠ userID then
      (store, cl, .error errNotFoundContainer)
    else if !createPodOk then
      (store, cl, .error ("failed to start container", 500))
    else
      (DB.UpdateContainerStatus store cid "pending", K8s.CreatePod cl c.nsName,
        .ok { c with status := "pending" })

/-- Model of `Handler.DeleteContainer` (after authentication): deletes the whole
namespace via the gateway (`deleteNamespaceOk` = that call returned nil),
then removes the row. -/
def DeleteContainer (store : List Container) (cl : K8s.Cluster) (userID : Int)
    (cid : String) (deleteNamespaceOk : Bool) :
    List Container × K8s.Cluster × Except ApiError Unit :=
  match DB.GetContainer store cid with
  | none => (store, cl, .error errNotFoundContainer)
  | some c =>
    if c.userID ≠ userID then
      (store, cl, .error errNotFoundContainer)
    else if !deleteNamespaceOk then
      (store, cl, .error ("failed to delete container", 500))
    else
      (DB.DeleteContainer store cid, K8s.DeleteNamespace cl c.nsName, .ok ())

end Api

/-- Newline-terminated concatenation of the keys' raw public-key lines, in
list order. -/
def keyLines : List SSHKey → String
  | [] => ""
  | k :: ks => k.publicKey ++ "\n" ++ keyLines ks

/-- Secret content as claim C3's spec sentence states it: the selected keys'
raw public-key lines, each followed by a newline, in the order the key IDs
were supplied in the request.  This is a spec-side definition, written to be
compared with the content the source builds. -/
def specAuthorizedKeysRequestOrder (keyTbl : List SSHKey) (userID : Int)
    (ids : List Int) : String :=
  keyLines (ids.filterMap (fun i => keyTbl.find? (fun k => k.userID = userID ∧ k.id = i)))

/-- A concrete stored row owned by user 2, used in concrete runs below. -/
def rowUser2 : Container :=
  { id := "abc12345", userID := 2, name := "dev", nsName := "compute-2-abc12345",
    status := "running", externalIP := some "203.0.113.7", memoryMB := 512,
    storageGB := 5, image := defaultImage, stoppedAtSet := false }

/-- A concrete stored row owned by user 1 with identifier `cid`. -/
def rowUser1 (cid : String) : Container :=
  { id := cid, userID := 1, name := "dev", nsName := "compute-1-" ++ cid,
    status := "running", externalIP := none, memoryMB := 512,
    storageGB := 5, image := defaultImage, stoppedAtSet := false }

/-- A concrete store holding three non-deleted rows of user 1. -/
def capStore : List Container :=
  [rowUser1 "aaaaaaaa", rowUser1 "bbbbbbbb", rowUser1 "cccccccc"]

/-- A concrete SSH key of user 1 with key ID 1. -/
def keyRowA : SSHKey :=
  { id := 1, userID := 1, name := "laptop",
    publicKey := "ssh-ed25519 AAAAfirst user@laptop", fingerprint := "SHA256:aaa" }

/-- A concrete SSH key of user 1 with key ID 2. -/
def keyRowB : SSHKey :=
  { id := 2, userID := 1, name := "desktop",
    publicKey := "ssh-ed25519 BBBBsecond user@desktop", fingerprint := "SHA256:bbb" }

/-- A concrete stored `ssh_keys` table: rows in ascending key ID. -/
def keyTbl2 : List SSHKey := [keyRowA, keyRowB]

/-- A concrete cluster: every resource of the namespace of
`rowUser1 "aaaaaaaa"` plus a pod in a sibling namespace. -/
def sampleCluster : K8s.Cluster :=
  [("compute-1-aaaaaaaa", K8s.ResKind.namespaceRes),
   ("compute-1-aaaaaaaa", K8s.ResKind.sshSecret),
   ("compute-1-aaaaaaaa", K8s.ResKind.pvc),
   ("compute-1-aaaaaaaa", K8s.ResKind.networkPolicy),
   ("compute-1-aaaaaaaa", K8s.ResKind.pod),
   ("compute-1-aaaaaaaa", K8s.ResKind.loadBalancer),
   ("compute-1-bbbbbbbb", K8s.ResKind.pod)]

/-- Folding the `strings.Builder` loop of `provisionContainer` equals the
newline-terminated concatenation in list order. -/
theorem buildAuthorizedKeys_eq_keyLines (keys : List SSHKey) :
    Api.buildAuthorizedKeys keys = keyLines keys := by
  have aux : ∀ (ks : List SSHKey) (acc : String),
      ks.foldl (fun a k => a ++ k.publicKey ++ "\n") acc = acc ++ keyLines ks := by
    intro ks
    induction ks with
    | nil => intro acc; simp [keyLines]
    | cons k ks ih =>
      intro acc
      rw [List.foldl_cons, ih]
      simp [keyLines, String.append_assoc]
  simpa [Api.buildAuthorizedKeys] using aux keys ""

/-- The SSH-key lookup equals a plain filter of the stored table: with an
empty ID list both sides are empty, otherwise by definition. -/
theorem getSSHKeysByIDs_eq_filter (tbl : List SSHKey) (userID : Int)
    (ids : List Int) :
    DB.GetSSHKeysByIDs tbl userID ids =
      tbl.filter (fun k => k.userID = userID ∧ k.id ∈ ids) := by
  unfold DB.GetSSHKeysByIDs
  split
  · next hemp =>
    rw [List.isEmpty_iff.mp hemp]
    simp
  · rfl

/-- C5: the namespace name assigned to a container is a pure deterministic
function of the pair (userID, containerID), always equal to the string
`compute-` + userID + `-` + containerID: equal inputs yield equal names,
and the row built by `CreateContainer` carries exactly this name. -/
theorem c5_namespace_deterministic :
    (∀ (userID : Int) (containerID : String),
        Api.namespaceFor userID containerID =
          "compute-" ++ toString userID ++ "-" ++ containerID) ∧
    (∀ (u₁ u₂ : Int) (c₁ c₂ : String), u₁ = u₂ → c₁ = c₂ →
        Api.namespaceFor u₁ c₁ = Api.namespaceFor u₂ c₂) ∧
    (∀ (store : List Container) (keyTbl : List SSHKey) (userID : Int)
        (req : Api.ContainerRequest) (newID : String) (c : Container)
        (keys : List SSHKey),
        (Api.CreateContainer store keyTbl userID req newID).provisionArgs =
          some (c, keys) →
        c.nsName = Api.namespaceFor userID newID ∧ c.id = newID) := by
  refine ⟨fun _ _ => rfl, fun u₁ u₂ c₁ c₂ hu hc => by rw [hu, hc], ?_⟩
  intro store keyTbl userID req newID c keys h
  simp only [Api.CreateContainer] at h
  repeat' split at h
  all_goals simp_all
  all_goals obtain ⟨hc, -⟩ := h
  all_goals rw [← hc]
  all_goals exact ⟨rfl, rfl⟩

/-- Witness for C5: a concrete successful creation yields exactly the derived
namespace name. -/
theorem c5_namespace_deterministic_witness :
    (Api.CreateContainer [] keyTbl2 1 ⟨"dev1", 0, 0, [1]⟩ "abcd1234").provisionArgs =
      some ({ id := "abcd1234", userID := 1, name := "dev1",
              nsName := Api.namespaceFor 1 "abcd1234", status := "pending",
              externalIP := none, memoryMB := 512, storageGB := 5,
              image := defaultImage, stoppedAtSet := false }, [keyRowA]) ∧
    ({ id := "abcd1234", userID := 1, name := "dev1",
       nsName := Api.namespaceFor 1 "abcd1234", status := "pending",
       externalIP := none, memoryMB := 512, storageGB := 5,
       image := defaultImage, stoppedAtSet := false } : Container).nsName =
        Api.namespaceFor 1 "abcd1234" :=
  ⟨by decide, (c5_namespace_deterministic.2.2 [] keyTbl2 1 ⟨"dev1", 0, 0, [1]⟩
      "abcd1234" _ [keyRowA] (by decide)).1⟩

/-- C4: a user already owning the cap of 3 non-deleted containers has
creation rejected with the limit-reached error and no new row inserted; the
cap is checked against the live count over the current store. -/
theorem c4_limit_rejected (store : List Container) (keyTbl : List SSHKey)
    (userID : Int) (req : Api.ContainerRequest) (newID : String)
    (hname : Api.trimSpace req.name ≠ "")
    (hcap : maxContainersPerUser ≤ DB.CountContainersByUser store userID) :
    Api.CreateContainer store keyTbl userID req newID =
      ⟨store, .error ("container limit reached (3)", 400), none⟩ := by
  simp only [Api.CreateContainer]
  rw [if_neg hname, if_pos hcap]

/-- Witness for C4 at a concrete store holding three non-deleted rows of
user 1. -/
theorem c4_limit_rejected_witness :
    Api.CreateContainer capStore keyTbl2 1 ⟨"dev1", 0, 0, [1]⟩ "dddddddd" =
      ⟨capStore, .error ("container limit reached (3)", 400), none⟩ :=
  c4_limit_rejected capStore keyTbl2 1 ⟨"dev1", 0, 0, [1]⟩ "dddddddd"
    (by decide) (by decide)

/-- C10: with an otherwise valid request, a memory_mb value ≤ 0 is silently
replaced by the default 512 and a storage_gb value ≤ 0 by the default 5: no
validation error is raised, the response carries the defaults, and the
inserted row carries the defaults. -/
theorem c10_sizing_defaults (store : List Container) (keyTbl : List SSHKey)
    (userID : Int) (req : Api.ContainerRequest) (newID : String)
    (hname : Api.trimSpace req.name ≠ "")
    (hcap : DB.CountContainersByUser store userID < maxContainersPerUser)
    (hkeys : req.sshKeyIDs ≠ [])
    (hlen : (DB.GetSSHKeysByIDs keyTbl userID req.sshKeyIDs).length =
      req.sshKeyIDs.length)
    (hmem : req.memoryMB ≤ 0) (hsto : req.storageGB ≤ 0) :
    (Api.CreateContainer store keyTbl userID req newID).response.map
        Container.memoryMB = .ok 512 ∧
    (Api.CreateContainer store keyTbl userID req newID).response.map
        Container.storageGB = .ok 5 ∧
    (Api.CreateContainer store keyTbl userID req newID).store.map
        Container.memoryMB = store.map Container.memoryMB ++ [512] ∧
    (Api.CreateContainer store keyTbl userID req newID).store.map
        Container.storageGB = store.map Container.storageGB ++ [5] := by
  simp only [Api.CreateContainer]
  rw [if_neg hname, if_neg (not_le.mpr hcap),
    if_neg (fun h => hkeys (List.isEmpty_iff.mp h)),
    if_neg (not_not_intro hlen), if_pos hmem, if_pos hsto]
  refine ⟨rfl, rfl, ?_, ?_⟩ <;>
    simp [DB.CreateContainer, defaultMemoryMB, defaultStorageGB]

/-- Witness for C10: negative sizing values at a concrete request become the
defaults. -/
theorem c10_sizing_defaults_witness :
    (Api.CreateContainer [] keyTbl2 1 ⟨"dev1", -3, -10, [1, 2]⟩ "eeeeeeee").response.map
        Container.memoryMB = .ok 512 ∧
    (Api.CreateContainer [] keyTbl2 1 ⟨"dev1", -3, -10, [1, 2]⟩ "eeeeeeee").response.map
        Container.storageGB = .ok 5 ∧
    (Api.CreateContainer [] keyTbl2 1 ⟨"dev1", -3, -10, [1, 2]⟩ "eeeeeeee").store.map
        Container.memoryMB = ([] : List Container).map Container.memoryMB ++ [512] ∧
    (Api.CreateContainer [] keyTbl2 1 ⟨"dev1", -3, -10, [1, 2]⟩ "eeeeeeee").store.map
        Container.storageGB = ([] : List Container).map Container.storageGB ++ [5] :=
  c10_sizing_defaults [] keyTbl2 1 ⟨"dev1", -3, -10, [1, 2]⟩ "eeeeeeee"
    (by decide) (by decide) (by decide) (by decide) (by decide) (by decide)

/-- C1: one provisioning run attempts the six gateway steps strictly in
program order; the first failing step sets the stored status to `failed` and
no later step is attempted; only when all six succeed does the stored status
become `running` and the endpoint poller start. -/
theorem c1_provision_sequence (g : Api.GatewayOutcome) (store : List Container)
    (cid : String) :
    match Api.firstFailIdx g with
    | some i =>
        (Api.provisionContainer g store cid).attempted = Api.provOrder.take (i + 1) ∧
        (Api.provisionContainer g store cid).store =
          DB.UpdateContainerStatus store cid "failed" ∧
        (Api.provisionContainer g store cid).pollerStarted = false
    | none =>
        (Api.provisionContainer g store cid).attempted = Api.provOrder ∧
        (Api.provisionContainer g store cid).store =
          DB.UpdateContainerStatus store cid "running" ∧
        (Api.provisionContainer g store cid).pollerStarted = true := by
  obtain ⟨ns, se, pv, np, po, lb⟩ := g
  cases ns <;> cases se <;> cases pv <;> cases np <;> cases po <;> cases lb <;>
    simp [Api.provisionContainer, Api.firstFailIdx, Api.provOrder, Api.stepOk,
      List.findIdx?]

/-- C9: for get, stop, start, and delete, a container ID that is missing or
owned by a different user yields the identical not-found error (HTTP 404,
never a 403 authorization error), with store and cluster untouched. -/
theorem c9_foreign_is_not_found (store : List Container) (cl : K8s.Cluster)
    (userID : Int) (cid : String) (env : Api.LiveEnv) (b₁ b₂ b₃ : Bool)
    (h : ∀ c, DB.GetContainer store cid = some c → c.userID ≠ userID) :
    Api.GetContainer store userID cid env =
      (store, .error Api.errNotFoundContainer) ∧
    Api.StopContainer store cl userID cid b₁ =
      (store, cl, .error Api.errNotFoundContainer) ∧
    Api.StartContainer store cl userID cid b₂ =
      (store, cl, .error Api.errNotFoundContainer) ∧
    Api.DeleteContainer store cl userID cid b₃ =
      (store, cl, .error Api.errNotFoundContainer) ∧
    Api.errNotFoundContainer = ("container not found", 404) := by
  cases hc : DB.GetContainer store cid with
  | none =>
    simp [Api.GetContainer, Api.StopContainer, Api.StartContainer,
      Api.DeleteContainer, hc, Api.errNotFoundContainer]
  | some c =>
    have hne := h c hc
    simp [Api.GetContainer, Api.StopContainer, Api.StartContainer,
      Api.DeleteContainer, hc, hne, Api.errNotFoundContainer]

/-- Witness for C9 at a concrete row owned by user 2 and accessed by user 1. -/
theorem c9_foreign_is_not_found_witness :
    Api.GetContainer [rowUser2] 1 "abc12345" ⟨K8s.PodQuery.queryError, .error ()⟩ =
      ([rowUser2], .error Api.errNotFoundContainer) ∧
    Api.StopContainer [rowUser2] sampleCluster 1 "abc12345" true =
      ([rowUser2], sampleCluster, .error Api.errNotFoundContainer) ∧
    Api.StartContainer [rowUser2] sampleCluster 1 "abc12345" true =
      ([rowUser2], sampleCluster, .error Api.errNotFoundContainer) ∧
    Api.DeleteContainer [rowUser2] sampleCluster 1 "abc12345" true =
      ([rowUser2], sampleCluster, .error Api.errNotFoundContainer) ∧
    Api.errNotFoundContainer = ("container not found", 404) :=
  c9_foreign_is_not_found [rowUser2] sampleCluster 1 "abc12345"
    ⟨K8s.PodQuery.queryError, .error ()⟩ true true true
    (by
      intro c hc
      have hv : DB.GetContainer [rowUser2] "abc12345" = some rowUser2 := by decide
      rw [hv] at hc
      injection hc with h2
      rw [← h2]
      decide)

/-- C8: when both live cluster queries fail during a read of an existing
owned container, the read still succeeds, returns the previously stored
view, and leaves the stored record unchanged. -/
theorem c8_reconcile_failure_swallowed (store : List Container) (userID : Int)
    (cid : String) (c : Container)
    (hc : DB.GetContainer store cid = some c) (hown : c.userID = userID) :
    Api.GetContainer store userID cid ⟨K8s.PodQuery.queryError, .error ()⟩ =
      (store, .ok c) := by
  cases hip : c.externalIP <;>
    simp [Api.GetContainer, hc, hown, hip, K8s.GetPodStatus]

/-- Witness for C8 at a concrete owned row. -/
theorem c8_reconcile_failure_swallowed_witness :
    Api.GetContainer [rowUser2] 2 "abc12345" ⟨K8s.PodQuery.queryError, .error ()⟩ =
      ([rowUser2], .ok rowUser2) :=
  c8_reconcile_failure_swallowed [rowUser2] 2 "abc12345" rowUser2
    (by decide) (by decide)

/-- C6: stopping an owned container deletes only the pod resource — every
other resource of its namespace and every resource of other namespaces
survive and nothing is added — marks the stored row `stopped` with
stopped-at set, and the operation succeeds even when the pod is already
absent (the cluster is then unchanged). -/
theorem c6_stop_only_pod (store : List Container) (cl : K8s.Cluster)
    (userID : Int) (cid : String) (c : Container)
    (hc : DB.GetContainer store cid = some c) (hown : c.userID = userID) :
    Api.StopContainer store cl userID cid true =
      (DB.UpdateContainerStopped store cid, K8s.DeletePod cl c.nsName,
        .ok { c with status := "stopped" }) ∧
    (∀ r ∈ cl, r ≠ (c.nsName, K8s.ResKind.pod) → r ∈ K8s.DeletePod cl c.nsName) ∧
    (∀ r ∈ K8s.DeletePod cl c.nsName, r ∈ cl) ∧
    (c.nsName, K8s.ResKind.pod) ∉ K8s.DeletePod cl c.nsName ∧
    (∀ c2 ∈ DB.UpdateContainerStopped store cid, c2.id = cid →
        c2.status = "stopped" ∧ c2.stoppedAtSet = true) ∧
    ((c.nsName, K8s.ResKind.pod) ∉ cl → K8s.DeletePod cl c.nsName = cl) := by
  refine ⟨?_, ?_, ?_, ?_, ?_, ?_⟩
  · simp [Api.StopContainer, hc, hown]
  · intro r hr hne
    obtain ⟨x, y⟩ := r
    simp only [K8s.DeletePod, List.mem_filter, decide_eq_true_eq]
    refine ⟨hr, ?_⟩
    rintro ⟨h1, h2⟩
    subst h1
    subst h2
    exact hne rfl
  · intro r hr
    exact (List.mem_filter.mp hr).1
  · intro hmem
    have h2 := (List.mem_filter.mp hmem).2
    simp at h2
  · intro c2 hc2 hid
    simp only [DB.UpdateContainerStopped, List.mem_map] at hc2
    obtain ⟨c0, hc0, heq⟩ := hc2
    by_cases h0 : c0.id = cid
    · rw [if_pos h0] at heq
      rw [← heq]
      exact ⟨rfl, rfl⟩
    · rw [if_neg h0] at heq
      rw [← heq] at hid
      exact absurd hid h0
  · intro habs
    apply List.filter_eq_self.mpr
    intro a ha
    obtain ⟨x, y⟩ := a
    simp only [decide_eq_true_eq]
    rintro ⟨h1, h2⟩
    subst h1
    subst h2
    exact habs ha

/-- Witness for C6 at a concrete owned row and a concrete cluster holding
all six resources of its namespace plus a pod of a sibling namespace. -/
theorem c6_stop_only_pod_witness :
    Api.StopContainer [rowUser1 "aaaaaaaa"] sampleCluster 1 "aaaaaaaa" true =
      (DB.UpdateContainerStopped [rowUser1 "aaaaaaaa"] "aaaaaaaa",
        K8s.DeletePod sampleCluster (rowUser1 "aaaaaaaa").nsName,
        .ok { rowUser1 "aaaaaaaa" with status := "stopped" }) ∧
    (∀ r ∈ sampleCluster, r ≠ ((rowUser1 "aaaaaaaa").nsName, K8s.ResKind.pod) →
        r ∈ K8s.DeletePod sampleCluster (rowUser1 "aaaaaaaa").nsName) ∧
    (∀ r ∈ K8s.DeletePod sampleCluster (rowUser1 "aaaaaaaa").nsName,
        r ∈ sampleCluster) ∧
    ((rowUser1 "aaaaaaaa").nsName, K8s.ResKind.pod) ∉
        K8s.DeletePod sampleCluster (rowUser1 "aaaaaaaa").nsName ∧
    (∀ c2 ∈ DB.UpdateContainerStopped [rowUser1 "aaaaaaaa"] "aaaaaaaa",
        c2.id = "aaaaaaaa" → c2.status = "stopped" ∧ c2.stoppedAtSet = true) ∧
    (((rowUser1 "aaaaaaaa").nsName, K8s.ResKind.pod) ∉ sampleCluster →
        K8s.DeletePod sampleCluster (rowUser1 "aaaaaaaa").nsName = sampleCluster) :=
  c6_stop_only_pod [rowUser1 "aaaaaaaa"] sampleCluster 1 "aaaaaaaa"
    (rowUser1 "aaaaaaaa") (by decide) (by decide)

/-- C7: the endpoint poller queries on a fixed 5-second interval under a
5-minute deadline (60 ticks in a full run); the first tick whose query
returns a non-empty address writes it to the stored record and polling stops
with no further queries; a query error or an empty answer does not terminate
polling; when no tick yields an address the poller ends at the deadline
having queried once per tick, without error and without writing. -/
theorem c7_poller (store : List Container) (cid : String) :
    (Api.pollIntervalSeconds = 5 ∧ Api.pollDeadlineSeconds = 300 ∧
      Api.maxPollTicks = 60) ∧
    (∀ (pre rest : List (Except Unit String)) (r : Except Unit String)
        (ip : String),
        (∀ x ∈ pre, Api.ipOf x = none) → Api.ipOf r = some ip →
        Api.pollExternalIP store cid (pre ++ r :: rest) =
          (DB.UpdateContainerIP store cid ip, pre.length + 1)) ∧
    (∀ rs : List (Except Unit String), (∀ x ∈ rs, Api.ipOf x = none) →
        Api.pollExternalIP store cid rs = (store, rs.length)) := by
  refine ⟨⟨rfl, rfl, rfl⟩, ?_, ?_⟩
  · intro pre
    induction pre with
    | nil =>
      intro rest r ip _ hip
      cases r with
      | error e => simp [Api.ipOf] at hip
      | ok s =>
        simp only [Api.ipOf] at hip
        by_cases hs : s = ""
        · rw [if_pos hs] at hip
          exact absurd hip (by simp)
        · rw [if_neg hs] at hip
          injection hip with h2
          subst h2
          simp [Api.pollExternalIP, hs]
    | cons x pre ih =>
      intro rest r ip hpre hip
      have hx := hpre x (List.mem_cons_self x pre)
      have hrec := ih rest r ip (fun y hy => hpre y (List.mem_cons_of_mem x hy)) hip
      cases x with
      | error e =>
        simp [Api.pollExternalIP, List.cons_append, hrec]
      | ok s =>
        simp only [Api.ipOf] at hx
        by_cases hs : s = ""
        · simp [Api.pollExternalIP, List.cons_append, hs, hrec]
        · rw [if_neg hs] at hx
          exact absurd hx (by simp)
  · intro rs
    induction rs with
    | nil => intro _; rfl
    | cons x rs ih =>
      intro hall
      have hx := hall x (List.mem_cons_self x rs)
      have hrec := ih (fun y hy => hall y (List.mem_cons_of_mem x hy))
      cases x with
      | error e => simp [Api.pollExternalIP, hrec]
      | ok s =>
        simp only [Api.ipOf] at hx
        by_cases hs : s = ""
        · simp [Api.pollExternalIP, hs, hrec]
        · rw [if_neg hs] at hx
          exact absurd hx (by simp)

/-- Witness for C7: an error tick and an empty tick do not stop polling, the
first non-empty address is written and polling stops after that query; a run
of only error/empty ticks ends with the store unchanged. -/
theorem c7_poller_witness :
    Api.pollExternalIP [rowUser1 "aaaaaaaa"] "aaaaaaaa"
        [.error (), .ok "", .ok "198.51.100.9", .ok "203.0.113.250"] =
      (DB.UpdateContainerIP [rowUser1 "aaaaaaaa"] "aaaaaaaa" "198.51.100.9", 3) ∧
    Api.pollExternalIP [rowUser1 "aaaaaaaa"] "aaaaaaaa" [.error (), .ok ""] =
      ([rowUser1 "aaaaaaaa"], 2) :=
  ⟨(c7_poller [rowUser1 "aaaaaaaa"] "aaaaaaaa").2.1 [.error (), .ok ""]
      [.ok "203.0.113.250"] (.ok "198.51.100.9") "198.51.100.9"
      (by decide) (by decide),
    (c7_poller [rowUser1 "aaaaaaaa"] "aaaaaaaa").2.2 [.error (), .ok ""]
      (by decide)⟩

/-- C2 counterexample: reading an owned container whose pod is absent
persists the cluster signal `not_found` into the stored record — the last
known status `running` is not kept, and the persisted status falls outside
pending/running/stopped/failed/deleted. -/
theorem c2_counterexample :
    ((Api.GetContainer [rowUser2] 2 "abc12345"
        ⟨K8s.PodQuery.absent, .error ()⟩).1.map Container.status =
      ["not_found"]) ∧
    rowUser2.status = "running" ∧
    "not_found" ∉ ["pending", "running", "stopped", "failed", "deleted"] :=
  ⟨by decide, rfl, by decide⟩

/-- C2 amended: the transient cluster signals are persisted after all — when
the workload resource is absent, the cluster reports `not_found` without
error and a read of an owned container writes that value to the stored
record whenever it differs from the stored status (instead of keeping the
last known status), so the persisted status can leave the five-value
vocabulary. -/
theorem c2_absent_pod_persists_not_found (store : List Container)
    (userID : Int) (cid : String) (c : Container)
    (hc : DB.GetContainer store cid = some c) (hown : c.userID = userID)
    (hne : c.status ≠ "not_found") :
    Api.GetContainer store userID cid ⟨K8s.PodQuery.absent, .error ()⟩ =
      (DB.UpdateContainerStatus store c.id "not_found",
        .ok { c with status := "not_found" }) := by
  have hne2 : "not_found" ≠ c.status := Ne.symm hne
  cases hip : c.externalIP <;>
    simp [Api.GetContainer, hc, hown, hip, hne2, K8s.GetPodStatus]

/-- Witness for C2's amended statement at a concrete running row. -/
theorem c2_absent_pod_persists_not_found_witness :
    Api.GetContainer [rowUser2] 2 "abc12345" ⟨K8s.PodQuery.absent, .error ()⟩ =
      (DB.UpdateContainerStatus [rowUser2] rowUser2.id "not_found",
        .ok { rowUser2 with status := "not_found" }) :=
  c2_absent_pod_persists_not_found [rowUser2] 2 "abc12345" rowUser2
    (by decide) (by decide) (by decide)

/-- C3 counterexample: with two stored keys (IDs 1 and 2) and the key IDs
supplied in the order [2, 1], the secret content the code builds lists key 1
first (stored-table order), while the claim's supplied-order content lists
key 2 first — the two differ. -/
theorem c3_counterexample :
    ((Api.CreateContainer [] keyTbl2 1 ⟨"dev1", 0, 0, [2, 1]⟩
        "abcd1234").provisionArgs.map
      (fun a => Api.buildAuthorizedKeys a.2)) =
      some (keyRowA.publicKey ++ "\n" ++ (keyRowB.publicKey ++ "\n")) ∧
    specAuthorizedKeysRequestOrder keyTbl2 1 [2, 1] =
      keyRowB.publicKey ++ "\n" ++ (keyRowA.publicKey ++ "\n") ∧
    keyRowA.publicKey ++ "\n" ++ (keyRowB.publicKey ++ "\n") ≠
      keyRowB.publicKey ++ "\n" ++ (keyRowA.publicKey ++ "\n") :=
  ⟨by decide, by decide, by decide⟩

/-- C3 amended: the secret content is the selected keys' raw public-key
lines, each followed by a newline, in the record store's return order — the
stored key-table (ascending key ID) order — which coincides with the
supplied order only when the IDs are supplied in stored order. -/
theorem c3_secret_in_table_order (store : List Container) (keyTbl : List SSHKey)
    (userID : Int) (req : Api.ContainerRequest) (newID : String) (c : Container)
    (keys : List SSHKey)
    (h : (Api.CreateContainer store keyTbl userID req newID).provisionArgs =
      some (c, keys)) :
    Api.buildAuthorizedKeys keys =
      keyLines (keyTbl.filter (fun k => k.userID = userID ∧ k.id ∈ req.sshKeyIDs)) := by
  have hkeys : keys = DB.GetSSHKeysByIDs keyTbl userID req.sshKeyIDs := by
    simp only [Api.CreateContainer] at h
    repeat' split at h
    all_goals simp_all
  rw [hkeys, getSSHKeysByIDs_eq_filter, buildAuthorizedKeys_eq_keyLines]

/-- Witness for C3's amended statement at the concrete two-key table with
IDs supplied in descending order. -/
theorem c3_secret_in_table_order_witness :
    Api.buildAuthorizedKeys [keyRowA, keyRowB] =
      keyLines (keyTbl2.filter
        (fun k => k.userID = 1 ∧ k.id ∈ ([2, 1] : List Int))) :=
  c3_secret_in_table_order [] keyTbl2 1 ⟨"dev1", 0, 0, [2, 1]⟩ "abcd1234"
    { id := "abcd1234", userID := 1, name := "dev1",
      nsName := Api.namespaceFor 1 "abcd1234", status := "pending",
      externalIP := none, memoryMB := 512, storageGB := 5,
      image := defaultImage, stoppedAtSet := false }
    [keyRowA, keyRowB] (by decide)

end EddCompute
